import Mathlib

/-!
Verification of `src/src/components/WeatherApp.tsx`.

The component is embedded shallowly: React state becomes an explicit
`AppState` record, the async event handlers become pure state
transformers, and each network `fetch` is modelled by a `FetchResult`
parameter describing how the request resolves (an `ok` response with a
parsed body, a non-`ok` response, or a rejection/throw with some value).
The transformers additionally return the list of weather-API fetches
they issue, in order, so that sequencing claims can be stated.
Numbers coming from the API are modelled as rationals, and JavaScript
`Math.round` as `jsRound` (floor of `x + 1/2`, which rounds halves
towards positive infinity exactly as `Math.round` does).
-/

/-- `condition` objects of the API responses (`text`, `icon`). -/
structure Condition where
  text : String
  icon : String
  deriving DecidableEq, Repr

/-- `location` object of a current-weather response. -/
structure Location where
  name : String
  country : String
  deriving DecidableEq, Repr

/-- `current` object of a current-weather response. -/
structure CurrentWeather where
  temp_c : ℚ
  humidity : ℚ
  wind_kph : ℚ
  condition : Condition
  deriving DecidableEq, Repr

/-- The `WeatherData` interface of the source. -/
structure WeatherData where
  location : Location
  current : CurrentWeather
  deriving DecidableEq, Repr

/-- The `day` object of one forecast day. -/
structure DayInfo where
  avgtemp_c : ℚ
  condition : Condition
  deriving DecidableEq, Repr

/-- One entry of the `forecastday` array. -/
structure ForecastDay where
  date : String
  day : DayInfo
  deriving DecidableEq, Repr

/-- The `forecast` object of a forecast response. -/
structure Forecast where
  forecastday : List ForecastDay
  deriving DecidableEq, Repr

/-- The `ForecastData` interface of the source. -/
structure ForecastData where
  forecast : Forecast
  deriving DecidableEq, Repr

/-- A value thrown inside a `try` block: either a JavaScript `Error`
carrying a message, or any non-`Error` value. -/
inductive Thrown where
  | error (msg : String)
  | nonError
  deriving DecidableEq, Repr

/-- How one `await fetch(...)` (together with reading its body) resolves:
`ok body` for an `ok` response whose JSON parses to `body`, `notOk` for a
response with `ok = false`, `throwVal v` when the fetch rejects or the
body read throws the value `v`. -/
inductive FetchResult (α : Type) where
  | ok (data : α)
  | notOk
  | throwVal (v : Thrown)
  deriving DecidableEq, Repr

/-- A weather-API request issued by `fetchWeatherData`: the
current-weather request or the forecast request, each tagged with the
city it asks about. -/
inductive FetchEvent where
  | current (cityName : String)
  | forecast (cityName : String)
  deriving DecidableEq, Repr

/-- The component's React state: `city`, `weatherData`, `forecastData`,
`loading`, `error` (with `null` as `none`). -/
structure AppState where
  city : String
  weatherData : Option WeatherData
  forecastData : Option ForecastData
  loading : Bool
  error : Option String
  deriving DecidableEq, Repr

/-- The shared `catch (error)` clause of `fetchWeatherData` and of the
geolocation callback: set the error message only when the thrown value
is an `Error` instance, then clear both data fields. -/
def applyCatch (s : AppState) (v : Thrown) : AppState :=
  let s1 :=
    match v with
    | Thrown.error msg => { s with error := some msg }
    | Thrown.nonError => s
  { s1 with weatherData := none, forecastData := none }

/-- The `finally` clause: `setLoading(false)`. -/
def applyFinally (s : AppState) : AppState :=
  { s with loading := false }

/-- `fetchWeatherData(cityName)` of the source, lines 45-77: set
`loading`/clear `error`, await the current-weather fetch (throwing
"City not found! Please Try Again." when not ok), store its body, await
the forecast fetch (throwing "Unable to fetch forecast data." when not
ok), store its body; the catch clause handles any throw and the finally
clause resets `loading`.  Returns the final state and the ordered list
of weather-API requests actually issued. -/
def fetchWeatherData (cityName : String) (s : AppState)
    (weatherResponse : FetchResult WeatherData)
    (forecastResponse : FetchResult ForecastData) :
    AppState × List FetchEvent :=
  let s1 := { s with loading := true, error := none }
  let events1 := [FetchEvent.current cityName]
  match weatherResponse with
  | FetchResult.throwVal v => (applyFinally (applyCatch s1 v), events1)
  | FetchResult.notOk =>
      (applyFinally
        (applyCatch s1 (Thrown.error "City not found! Please Try Again.")),
       events1)
  | FetchResult.ok wd =>
      let s2 := { s1 with weatherData := some wd }
      let events2 := events1 ++ [FetchEvent.forecast cityName]
      match forecastResponse with
      | FetchResult.throwVal v => (applyFinally (applyCatch s2 v), events2)
      | FetchResult.notOk =>
          (applyFinally
            (applyCatch s2 (Thrown.error "Unable to fetch forecast data.")),
           events2)
      | FetchResult.ok fd =>
          (applyFinally { s2 with forecastData := some fd }, events2)

/-- JavaScript `String.prototype.trim`, used as `city.trim()` at line
81: remove the whitespace characters at both ends of the string.
Written structurally over the character list so that it evaluates by
kernel reduction. -/
def jsTrim (s : String) : String :=
  String.mk
    (((s.data.dropWhile Char.isWhitespace).reverse.dropWhile
        Char.isWhitespace).reverse)

/-- `handleSubmit` of the source, lines 79-90: on a whitespace-only
city set the "Please enter a city." error and clear the data without
fetching; otherwise clear the error, run `fetchWeatherData(city)` and
reset the `city` field to the empty string. -/
def handleSubmit (s : AppState)
    (weatherResponse : FetchResult WeatherData)
    (forecastResponse : FetchResult ForecastData) :
    AppState × List FetchEvent :=
  if jsTrim s.city = "" then
    ({ s with error := some "Please enter a city.",
              weatherData := none, forecastData := none }, [])
  else
    let s1 := { s with error := none }
    let r := fetchWeatherData s.city s1 weatherResponse forecastResponse
    ({ r.1 with city := "" }, r.2)

/-- The success callback of `navigator.geolocation.getCurrentPosition`
in `getUserLocation`, lines 96-120: set `loading`, await the
reverse-geocode fetch (throwing "Unable to fetch location data." when
not ok), store its body and the location name, then await
`fetchWeatherData` on that name; its own catch clause handles any throw
of the reverse-geocode step and its finally clause resets `loading`. -/
def geolocateSuccess (s : AppState)
    (locationResponse : FetchResult WeatherData)
    (weatherResponse : FetchResult WeatherData)
    (forecastResponse : FetchResult ForecastData) :
    AppState × List FetchEvent :=
  let s1 := { s with loading := true }
  match locationResponse with
  | FetchResult.throwVal v => (applyFinally (applyCatch s1 v), [])
  | FetchResult.notOk =>
      (applyFinally
        (applyCatch s1 (Thrown.error "Unable to fetch location data.")), [])
  | FetchResult.ok data =>
      let s2 := { s1 with weatherData := some data,
                          city := data.location.name }
      let r := fetchWeatherData data.location.name s2
                 weatherResponse forecastResponse
      (applyFinally r.1, r.2)

/-- JavaScript `Math.round`: floor of `x + 1/2` (halves round towards
positive infinity). -/
def jsRound (q : ℚ) : ℤ := ⌊q + 1/2⌋

/-- Rendered temperature, line 188: `Math.round(weatherData.current.temp_c)`. -/
def displayedTempC (wd : WeatherData) : ℤ := jsRound wd.current.temp_c

/-- Rendered wind speed, line 205: `Math.round(weatherData.current.wind_kph)`. -/
def displayedWindKph (wd : WeatherData) : ℤ := jsRound wd.current.wind_kph

/-- Rendered humidity, line 218: `Math.round(weatherData.current.humidity)`. -/
def displayedHumidity (wd : WeatherData) : ℤ := jsRound wd.current.humidity

/-- Rendered average temperature of a forecast day, line 240:
`Math.round(day.day.avgtemp_c)`. -/
def displayedDayAvgTempC (d : ForecastDay) : ℤ := jsRound d.day.avgtemp_c

/-- The forecast entries rendered at lines 231-242:
`forecastData.forecast.forecastday.slice(0, 3)`. -/
def renderForecastDays (fd : ForecastData) : List ForecastDay :=
  fd.forecast.forecastday.take 3

/-- `jsRound` rounds to a nearest integer: it is within one half of its
argument. -/
theorem jsRound_nearest (q : ℚ) : |q - (jsRound q : ℚ)| ≤ 1/2 := by
  have h1 : (↑⌊q + 1/2⌋ : ℚ) ≤ q + 1/2 := Int.floor_le _
  have h2 : q + 1/2 - 1 < (↑⌊q + 1/2⌋ : ℚ) := Int.sub_one_lt_floor _
  rw [abs_le]
  unfold jsRound
  constructor <;> linarith

/-- `fetchWeatherData` never touches the `city` field. -/
theorem fetchWeatherData_city (c : String) (s : AppState)
    (w : FetchResult WeatherData) (f : FetchResult ForecastData) :
    (fetchWeatherData c s w f).1.city = s.city := by
  cases w with
  | ok wd =>
    cases f with
    | ok fd => rfl
    | notOk => rfl
    | throwVal v => cases v <;> rfl
  | notOk => rfl
  | throwVal v => cases v <;> rfl

/-- Claim C2: when both the current-weather request and the forecast
request return an ok response, `fetchWeatherData` leaves `weatherData`
equal to the parsed current-weather body, `forecastData` equal to the
parsed forecast body, and `error` cleared to `null`. -/
theorem fetchWeatherData_success (c : String) (s : AppState)
    (wd : WeatherData) (fd : ForecastData) :
    (fetchWeatherData c s (FetchResult.ok wd) (FetchResult.ok fd)).1.weatherData
      = some wd ∧
    (fetchWeatherData c s (FetchResult.ok wd) (FetchResult.ok fd)).1.forecastData
      = some fd ∧
    (fetchWeatherData c s (FetchResult.ok wd) (FetchResult.ok fd)).1.error
      = none :=
  ⟨rfl, rfl, rfl⟩

/-- Claim C3: a non-ok current-weather response makes `fetchWeatherData`
end with exactly the error string "City not found! Please Try Again.",
and a non-ok forecast response with exactly "Unable to fetch forecast
data."; in both cases the only other effect of the catch clause is
clearing both data fields. -/
theorem fetchWeatherData_failure_messages (c : String) (s : AppState)
    (wd : WeatherData) (f : FetchResult ForecastData) :
    (fetchWeatherData c s FetchResult.notOk f).1.error
      = some "City not found! Please Try Again." ∧
    (fetchWeatherData c s FetchResult.notOk f).1.weatherData = none ∧
    (fetchWeatherData c s FetchResult.notOk f).1.forecastData = none ∧
    (fetchWeatherData c s FetchResult.notOk f).1.city = s.city ∧
    (fetchWeatherData c s (FetchResult.ok wd) FetchResult.notOk).1.error
      = some "Unable to fetch forecast data." ∧
    (fetchWeatherData c s (FetchResult.ok wd) FetchResult.notOk).1.weatherData
      = none ∧
    (fetchWeatherData c s (FetchResult.ok wd) FetchResult.notOk).1.forecastData
      = none ∧
    (fetchWeatherData c s (FetchResult.ok wd) FetchResult.notOk).1.city
      = s.city :=
  ⟨rfl, rfl, rfl, rfl, rfl, rfl, rfl, rfl⟩

/-- Claim C6: in every run of `fetchWeatherData` the current-weather
request comes first, and the forecast request is issued exactly when the
current-weather request resolved with an ok response — otherwise only
the current-weather request happens. -/
theorem fetchWeatherData_sequential (c : String) (s : AppState)
    (w : FetchResult WeatherData) (f : FetchResult ForecastData) :
    (fetchWeatherData c s w f).2.head? = some (FetchEvent.current c) ∧
    (fetchWeatherData c s w f).2 =
      (match w with
       | FetchResult.ok _ => [FetchEvent.current c, FetchEvent.forecast c]
       | FetchResult.notOk => [FetchEvent.current c]
       | FetchResult.throwVal _ => [FetchEvent.current c]) := by
  cases w <;> cases f <;> exact ⟨rfl, rfl⟩

/-- Claim C7: whatever the two responses are, `fetchWeatherData` ends
with `loading = false` — the finally clause resets it on success and on
every failure alike. -/
theorem fetchWeatherData_loading_reset (c : String) (s : AppState)
    (w : FetchResult WeatherData) (f : FetchResult ForecastData) :
    (fetchWeatherData c s w f).1.loading = false := by
  cases w with
  | ok wd =>
    cases f with
    | ok fd => rfl
    | notOk => rfl
    | throwVal v => cases v <;> rfl
  | notOk => rfl
  | throwVal v => cases v <;> rfl

/-- Claim C9: when the current-weather request succeeded but the
forecast request fails (non-ok response or any throw), the catch clause
resets `weatherData` back to `none` together with `forecastData`: no
final state pairs current conditions with a failed forecast. -/
theorem fetchWeatherData_atomic (c : String) (s : AppState)
    (wd : WeatherData) (v : Thrown) :
    (fetchWeatherData c s (FetchResult.ok wd) FetchResult.notOk).1.weatherData
      = none ∧
    (fetchWeatherData c s (FetchResult.ok wd) FetchResult.notOk).1.forecastData
      = none ∧
    (fetchWeatherData c s (FetchResult.ok wd) (FetchResult.throwVal v)).1.weatherData
      = none ∧
    (fetchWeatherData c s (FetchResult.ok wd) (FetchResult.throwVal v)).1.forecastData
      = none := by
  cases v <;> exact ⟨rfl, rfl, rfl, rfl⟩

/-- The event list of `fetchWeatherData` always starts with the
current-weather request for the given city. -/
theorem fetchWeatherData_events_head (c : String) (s : AppState)
    (w : FetchResult WeatherData) (f : FetchResult ForecastData) :
    (fetchWeatherData c s w f).2.head? = some (FetchEvent.current c) := by
  cases w <;> cases f <;> rfl

/-- Claim C1: a submission whose city trims to the empty string sets the
error "Please enter a city.", clears both data fields and issues no
fetch; a submission with a non-whitespace city clears the error and runs
`fetchWeatherData` on that city (its first request targeting the
submitted city). -/
theorem handleSubmit_validation (s : AppState)
    (w : FetchResult WeatherData) (f : FetchResult ForecastData) :
    (jsTrim s.city = "" →
      handleSubmit s w f =
        ({ s with error := some "Please enter a city.",
                  weatherData := none, forecastData := none }, [])) ∧
    (jsTrim s.city ≠ "" →
      handleSubmit s w f =
        (let r := fetchWeatherData s.city { s with error := none } w f
         ({ r.1 with city := "" }, r.2)) ∧
      (handleSubmit s w f).2.head? = some (FetchEvent.current s.city)) := by
  constructor
  · intro h
    simp only [handleSubmit, if_pos h]
  · intro h
    refine ⟨?_, ?_⟩
    · simp only [handleSubmit, if_neg h]
    · simp only [handleSubmit, if_neg h]
      exact fetchWeatherData_events_head s.city { s with error := none } w f

/-- A state holding the submitted city "London". -/
def sampleState : AppState :=
  { city := "London", weatherData := none, forecastData := none,
    loading := false, error := none }

/-- A state whose city input is whitespace only. -/
def blankState : AppState := { sampleState with city := "   " }

/-- Witness for claim C1 at the concrete states `blankState` and
`sampleState`. -/
theorem handleSubmit_validation_witness :
    handleSubmit blankState FetchResult.notOk FetchResult.notOk
      = ({ blankState with error := some "Please enter a city.",
                           weatherData := none, forecastData := none }, []) ∧
    (handleSubmit sampleState FetchResult.notOk FetchResult.notOk).2.head?
      = some (FetchEvent.current "London") :=
  ⟨(handleSubmit_validation blankState FetchResult.notOk
      FetchResult.notOk).1 (by decide),
   ((handleSubmit_validation sampleState FetchResult.notOk
      FetchResult.notOk).2 (by decide)).2⟩

/-- Claim C4: the rendered forecast is exactly the first
`min 3 (length)` entries of the `forecastday` array in array order —
position `i` shows entry `i` for `i < 3` and nothing beyond. -/
theorem renderForecastDays_spec (fd : ForecastData) :
    (renderForecastDays fd).length = min 3 fd.forecast.forecastday.length ∧
    ∀ i : ℕ, (renderForecastDays fd)[i]? =
      if i < 3 then fd.forecast.forecastday[i]? else none := by
  refine ⟨?_, fun i => ?_⟩
  · exact List.length_take ..
  · exact List.getElem?_take

/-- Claim C5: every displayed numeric value is `Math.round` of the
corresponding API field — `temp_c`, `wind_kph`, `humidity`,
`avgtemp_c` — and that rounding is to a nearest integer (within one
half of the raw value). -/
theorem displayed_values_rounded (wd : WeatherData) (d : ForecastDay) :
    displayedTempC wd = jsRound wd.current.temp_c ∧
    displayedWindKph wd = jsRound wd.current.wind_kph ∧
    displayedHumidity wd = jsRound wd.current.humidity ∧
    displayedDayAvgTempC d = jsRound d.day.avgtemp_c ∧
    |wd.current.temp_c - (displayedTempC wd : ℚ)| ≤ 1/2 ∧
    |wd.current.wind_kph - (displayedWindKph wd : ℚ)| ≤ 1/2 ∧
    |wd.current.humidity - (displayedHumidity wd : ℚ)| ≤ 1/2 ∧
    |d.day.avgtemp_c - (displayedDayAvgTempC d : ℚ)| ≤ 1/2 :=
  ⟨rfl, rfl, rfl, rfl, jsRound_nearest _, jsRound_nearest _,
   jsRound_nearest _, jsRound_nearest _⟩

/-- Claim C8: a thrown value that is not an `Error` instance produces no
error message while the data fields are still cleared: after
`fetchWeatherData` the message is the `null` set at the start of its
`try` block, and after the geolocation callback the message is whatever
it was before — in both cases the UI ends with neither data nor a new
error message. -/
theorem nonError_throw_silent (c : String) (s : AppState) (wd : WeatherData)
    (w : FetchResult WeatherData) (f : FetchResult ForecastData) :
    ((fetchWeatherData c s (FetchResult.throwVal Thrown.nonError) f).1.error
        = none ∧
     (fetchWeatherData c s (FetchResult.throwVal Thrown.nonError) f).1.weatherData
        = none ∧
     (fetchWeatherData c s (FetchResult.throwVal Thrown.nonError) f).1.forecastData
        = none) ∧
    ((fetchWeatherData c s (FetchResult.ok wd)
        (FetchResult.throwVal Thrown.nonError)).1.error = none ∧
     (fetchWeatherData c s (FetchResult.ok wd)
        (FetchResult.throwVal Thrown.nonError)).1.weatherData = none ∧
     (fetchWeatherData c s (FetchResult.ok wd)
        (FetchResult.throwVal Thrown.nonError)).1.forecastData = none) ∧
    ((geolocateSuccess s (FetchResult.throwVal Thrown.nonError) w f).1.error
        = s.error ∧
     (geolocateSuccess s (FetchResult.throwVal Thrown.nonError) w f).1.weatherData
        = none ∧
     (geolocateSuccess s (FetchResult.throwVal Thrown.nonError) w f).1.forecastData
        = none) :=
  ⟨⟨rfl, rfl, rfl⟩, ⟨rfl, rfl, rfl⟩, ⟨rfl, rfl, rfl⟩⟩

/-- Claim C10: after a submission with a non-whitespace city the city
input is reset to the empty string no matter how the fetch resolves;
after a whitespace-only submission it is left unchanged. -/
theorem handleSubmit_city_reset (s : AppState)
    (w : FetchResult WeatherData) (f : FetchResult ForecastData) :
    (handleSubmit s w f).1.city =
      if jsTrim s.city = "" then s.city else "" := by
  by_cases h : jsTrim s.city = ""
  · simp [handleSubmit, h]
  · simp [handleSubmit, h]
